import Mathlib

/-!
Verification of the autonomous-mowing ROI calculator engine.

The definitions below are a shallow embedding of the JavaScript source:
  - src/public/js/calculator.js : input resolution, the ROI engine,
    the investment evaluator and the 5-year projection;
  - the equipment recommendation module (recommendEquipment and its
    built-in fallback catalog).

JavaScript numbers are modelled as exact rationals.  The resolver also
needs the NaN behaviour of Number() coercion and of Math.max / Math.min,
so raw form values are modelled by the type RawNum (absent, present but
non-numeric, or a number) and resolved assumption fields by JNum (NaN or
a finite rational).  A present empty string coerces to the number 0 and
is covered by the numeric constructor.  Math.round(x) on finite x equals
the floor of x + 1/2, which is Mathlib's round function on rationals.
-/

/-- Round a rational to the given number of decimal places, mirroring the
round helper of calculator.js: Math.round(value * 10^d) / 10^d. -/
def roundTo (value : ℚ) (decimals : ℕ) : ℚ :=
  ((round (value * 10 ^ decimals) : ℤ) : ℚ) / 10 ^ decimals

/-- Clamp a number between lo and hi inclusive, mirroring the clamp helper
of calculator.js: Math.max(min, Math.min(max, value)). -/
def clampQ (value lo hi : ℚ) : ℚ :=
  max lo (min hi value)

/-- A raw form value: absent (undefined), present but coercing to NaN
(a non-numeric string), or coercing to a number. -/
inductive RawNum where
  | absent
  | nonNumeric
  | num (q : ℚ)
deriving DecidableEq

/-- A JavaScript number that may be NaN. -/
inductive JNum where
  | nan
  | fin (q : ℚ)
deriving DecidableEq

/-- The Number() coercion: undefined and non-numeric strings give NaN. -/
def jsNumber : RawNum → JNum
  | .absent => .nan
  | .nonNumeric => .nan
  | .num q => .fin q

/-- JavaScript v or-else d for a coerced number v: NaN and 0 are falsy. -/
def jsOr (v : JNum) (d : ℚ) : ℚ :=
  match v with
  | .nan => d
  | .fin q => if q = 0 then d else q

/-- Number(x) or-else d, the resolver pattern for always-finite fields. -/
def numOr (x : RawNum) (d : ℚ) : ℚ :=
  jsOr (jsNumber x) d

/-- Number(x !== undefined ? x : d): the default applies only when the
raw value is absent; a present non-numeric value becomes NaN. -/
def orDefault (x : RawNum) (d : ℚ) : JNum :=
  match x with
  | .absent => .fin d
  | v => jsNumber v

/-- Math.max(v, m) on a possibly-NaN value: NaN propagates. -/
def jsMax (v : JNum) (m : ℚ) : JNum :=
  match v with
  | .nan => .nan
  | .fin q => .fin (max q m)

/-- The clamp helper applied to a possibly-NaN value: NaN propagates
through Math.min and Math.max. -/
def jsClamp (v : JNum) (lo hi : ℚ) : JNum :=
  match v with
  | .nan => .nan
  | .fin q => .fin (clampQ q lo hi)

/-- The value is finite and lies in the closed interval from lo to hi. -/
def JNum.Within (v : JNum) (lo hi : ℚ) : Prop :=
  match v with
  | .nan => False
  | .fin q => lo ≤ q ∧ q ≤ hi

instance (v : JNum) (lo hi : ℚ) : Decidable (v.Within lo hi) :=
  match v with
  | .nan => isFalse (fun h => h)
  | .fin q => inferInstanceAs (Decidable (lo ≤ q ∧ q ≤ hi))

/-- The value is finite and at least lo. -/
def JNum.AtLeast (v : JNum) (lo : ℚ) : Prop :=
  match v with
  | .nan => False
  | .fin q => lo ≤ q

instance (v : JNum) (lo : ℚ) : Decidable (v.AtLeast lo) :=
  match v with
  | .nan => isFalse (fun h => h)
  | .fin q => inferInstanceAs (Decidable (lo ≤ q))

/-- Per-property-type defaults (the PROPERTY_DEFAULTS table). -/
structure PropDefaults where
  mowingTimePerAcre : ℚ
  mowsPerWeek : ℚ
  fuelPerAcre : ℚ
deriving DecidableEq

/-- The PROPERTY_DEFAULTS table of calculator.js. -/
def PROPERTY_DEFAULTS (pt : String) : Option PropDefaults :=
  if pt = "commercial" then some ⟨45, 1, 75/100⟩
  else if pt = "golf" then some ⟨60, 3, 1⟩
  else if pt = "athletic" then some ⟨50, 2, 85/100⟩
  else none

/-- The commercial row of the table, the fallback for unknown types. -/
def commercialDefaults : PropDefaults := ⟨45, 1, 75/100⟩

/-- The raw input map handed to resolveInputs.  String-valued fields are
Option String (none = absent); isLeased is the Boolean() coercion of the
raw value; every numeric field is a RawNum. -/
structure RawInputs where
  propertyType : Option String
  maintenanceType : Option String
  isLeased : Bool
  acreage : RawNum
  seasonWeeks : RawNum
  employees : RawNum
  hourlyRate : RawNum
  mowingTimePercent : RawNum
  monthlyContract : RawNum
  benefitsRate : RawNum
  fuelCostPerGallon : RawNum
  laborReduction : RawNum
  bufferTime : RawNum
  annualLaborIncrease : RawNum
  fuelPerAcre : RawNum
  annualFuelIncrease : RawNum
  baseEquipmentCost : RawNum
  equipmentCostPerAcre : RawNum
  maintenanceRate : RawNum
  insuranceRate : RawNum
  leasingPremium : RawNum
  roboticMaintenance : RawNum
  electricityPerAcre : RawNum
  co2PerGallon : RawNum
  mowingTimePerAcre : RawNum
  automationLevel : RawNum
  desiredMowingTime : RawNum
deriving DecidableEq

/-- The record returned by resolveInputs.  Fields produced through the
Number(x) or-else pattern are always finite; fields produced through the
undefined-check pattern keep a possible NaN. -/
structure ResolvedRecord where
  propertyType : String
  acreage : ℚ
  seasonWeeks : ℚ
  mowsPerWeek : ℚ
  maintenanceType : String
  employees : ℚ
  hourlyRate : ℚ
  mowingTimePercent : ℚ
  isLeased : Bool
  monthlyContract : ℚ
  benefitsRate : JNum
  fuelCostPerGallon : JNum
  laborReduction : JNum
  bufferTime : JNum
  annualLaborIncrease : JNum
  fuelPerAcre : JNum
  annualFuelIncrease : JNum
  baseEquipmentCost : JNum
  equipmentCostPerAcre : JNum
  maintenanceRate : JNum
  insuranceRate : JNum
  leasingPremium : JNum
  roboticMaintenance : JNum
  electricityPerAcre : JNum
  co2PerGallon : JNum
  mowingTimePerAcre : JNum
  automationLevel : JNum
  desiredMowingTime : JNum
deriving DecidableEq

/-- The input resolver of calculator.js (resolveInputs). -/
def resolveInputs (raw : RawInputs) : ResolvedRecord :=
  let pt : String :=
    match raw.propertyType with
    | none => "commercial"
    | some s => if s = "" then "commercial" else s
  let propDefaults := (PROPERTY_DEFAULTS pt).getD commercialDefaults
  { propertyType := pt
    acreage := max (numOr raw.acreage 0) 0
    seasonWeeks := max (numOr raw.seasonWeeks 30) 1
    mowsPerWeek := propDefaults.mowsPerWeek
    maintenanceType := if raw.maintenanceType = some "outsourced" then "outsourced" else "inhouse"
    employees := max (numOr raw.employees 0) 0
    hourlyRate := max (numOr raw.hourlyRate 0) 0
    mowingTimePercent := clampQ (numOr raw.mowingTimePercent 0) 0 100
    isLeased := raw.isLeased
    monthlyContract := max (numOr raw.monthlyContract 0) 0
    benefitsRate := jsClamp (orDefault raw.benefitsRate 12) 0 100
    fuelCostPerGallon := jsMax (orDefault raw.fuelCostPerGallon (350/100)) 0
    laborReduction := jsClamp (orDefault raw.laborReduction 85) 50 95
    bufferTime := jsClamp (orDefault raw.bufferTime 15) 5 40
    annualLaborIncrease := jsClamp (orDefault raw.annualLaborIncrease (25/10)) 0 10
    fuelPerAcre := jsMax (orDefault raw.fuelPerAcre propDefaults.fuelPerAcre) 0
    annualFuelIncrease := jsClamp (orDefault raw.annualFuelIncrease (35/10)) 0 15
    baseEquipmentCost := jsMax (orDefault raw.baseEquipmentCost 15000) 0
    equipmentCostPerAcre := jsMax (orDefault raw.equipmentCostPerAcre 2000) 0
    maintenanceRate := jsClamp (orDefault raw.maintenanceRate 10) 5 25
    insuranceRate := jsClamp (orDefault raw.insuranceRate 5) 1 15
    leasingPremium := jsClamp (orDefault raw.leasingPremium 7) 0 20
    roboticMaintenance := jsMax (orDefault raw.roboticMaintenance 3) 0
    electricityPerAcre := jsMax (orDefault raw.electricityPerAcre (15/10)) 0
    co2PerGallon := jsMax (orDefault raw.co2PerGallon (1959/100)) 0
    mowingTimePerAcre := jsMax (orDefault raw.mowingTimePerAcre propDefaults.mowingTimePerAcre) 0
    automationLevel := jsClamp (orDefault raw.automationLevel 50) 25 100
    desiredMowingTime := jsClamp (orDefault raw.desiredMowingTime 20) 5 60 }

/-- A fully resolved input record with every numeric field finite, the
form in which calculateROI consumes its inputs (the variable i of
calculator.js after resolution). -/
structure ResolvedInputs where
  propertyType : String
  acreage : ℚ
  seasonWeeks : ℚ
  mowsPerWeek : ℚ
  maintenanceType : String
  employees : ℚ
  hourlyRate : ℚ
  mowingTimePercent : ℚ
  isLeased : Bool
  monthlyContract : ℚ
  benefitsRate : ℚ
  fuelCostPerGallon : ℚ
  laborReduction : ℚ
  bufferTime : ℚ
  annualLaborIncrease : ℚ
  fuelPerAcre : ℚ
  annualFuelIncrease : ℚ
  baseEquipmentCost : ℚ
  equipmentCostPerAcre : ℚ
  maintenanceRate : ℚ
  insuranceRate : ℚ
  leasingPremium : ℚ
  roboticMaintenance : ℚ
  electricityPerAcre : ℚ
  co2PerGallon : ℚ
  mowingTimePerAcre : ℚ
  automationLevel : ℚ
  desiredMowingTime : ℚ
deriving DecidableEq

/-- The clamp-range invariant of a resolved input record, as documented
for the resolver (section 3 of the specification). -/
def ResolvedInputs.Valid (i : ResolvedInputs) : Prop :=
  (i.propertyType = "commercial" ∨ i.propertyType = "golf" ∨ i.propertyType = "athletic") ∧
  (i.maintenanceType = "inhouse" ∨ i.maintenanceType = "outsourced") ∧
  0 ≤ i.acreage ∧ 1 ≤ i.seasonWeeks ∧ 0 ≤ i.mowsPerWeek ∧
  0 ≤ i.employees ∧ 0 ≤ i.hourlyRate ∧
  0 ≤ i.mowingTimePercent ∧ i.mowingTimePercent ≤ 100 ∧
  0 ≤ i.monthlyContract ∧
  0 ≤ i.benefitsRate ∧ i.benefitsRate ≤ 100 ∧
  0 ≤ i.fuelCostPerGallon ∧
  50 ≤ i.laborReduction ∧ i.laborReduction ≤ 95 ∧
  5 ≤ i.bufferTime ∧ i.bufferTime ≤ 40 ∧
  0 ≤ i.annualLaborIncrease ∧ i.annualLaborIncrease ≤ 10 ∧
  0 ≤ i.fuelPerAcre ∧
  0 ≤ i.annualFuelIncrease ∧ i.annualFuelIncrease ≤ 15 ∧
  0 ≤ i.baseEquipmentCost ∧ 0 ≤ i.equipmentCostPerAcre ∧
  5 ≤ i.maintenanceRate ∧ i.maintenanceRate ≤ 25 ∧
  1 ≤ i.insuranceRate ∧ i.insuranceRate ≤ 15 ∧
  0 ≤ i.leasingPremium ∧ i.leasingPremium ≤ 20 ∧
  0 ≤ i.roboticMaintenance ∧ 0 ≤ i.electricityPerAcre ∧
  0 ≤ i.co2PerGallon ∧ 0 ≤ i.mowingTimePerAcre ∧
  25 ≤ i.automationLevel ∧ i.automationLevel ≤ 100 ∧
  5 ≤ i.desiredMowingTime ∧ i.desiredMowingTime ≤ 60

instance (i : ResolvedInputs) : Decidable i.Valid := by
  unfold ResolvedInputs.Valid; infer_instance

structure CurrentCosts where
  labor : ℚ
  fuel : ℚ
  equipment : ℚ
  total : ℚ
deriving DecidableEq

structure SavingsParts where
  labor : ℚ
  fuel : ℚ
  equipment : ℚ
  gross : ℚ
deriving DecidableEq

structure NewCosts where
  maintenance : ℚ
  electricity : ℚ
  total : ℚ
deriving DecidableEq

structure LaborAnalysis where
  currentHours : ℚ
  hoursSaved : ℚ
  currentFTE : ℚ
  reducedFTE : ℚ
deriving DecidableEq

structure Environmental where
  co2Reduced : ℚ
  fuelGallonsSaved : ℚ
  treeEquivalents : ℚ
  noiseReduction : ℚ
deriving DecidableEq

/-- The raw intermediate cost components kept on the result for the
projection engine (the internal field of the result object). -/
structure InternalCosts where
  laborCost : ℚ
  fuelCost : ℚ
  equipmentAnnualCost : ℚ
  roboticMaintenanceCost : ℚ
  electricityCost : ℚ
  totalNewCosts : ℚ
deriving DecidableEq

structure ROIResult where
  currentCosts : CurrentCosts
  savings : SavingsParts
  newCosts : NewCosts
  netAnnualSavings : ℚ
  labor : LaborAnalysis
  environmental : Environmental
  inputs : ResolvedInputs
  internal : InternalCosts
deriving DecidableEq

/-- The main calculation of calculator.js (calculateROI), taken from the
point where the inputs i are already resolved. -/
def calculateROI (i : ResolvedInputs) : ROIResult :=
  let laborCostRaw : ℚ :=
    if i.maintenanceType = "outsourced" then i.monthlyContract * 12
    else i.employees * i.hourlyRate * (1 + i.benefitsRate / 100) * 40 * i.seasonWeeks
      * (i.mowingTimePercent / 100) * (1 + i.bufferTime / 100)
  let fuelCostRaw : ℚ :=
    if i.maintenanceType = "outsourced" then 0
    else i.acreage * i.fuelPerAcre * i.mowsPerWeek * i.seasonWeeks * i.fuelCostPerGallon
  let equipmentAnnualCostRaw : ℚ :=
    if i.maintenanceType = "outsourced" then 0
    else
      let equipmentBaseCost := i.baseEquipmentCost + i.equipmentCostPerAcre * i.acreage
      let c := equipmentBaseCost * (i.maintenanceRate / 100 + i.insuranceRate / 100)
      if i.isLeased then c * (1 + i.leasingPremium / 100) else c
  let laborCost := roundTo laborCostRaw 2
  let fuelCost := roundTo fuelCostRaw 2
  let equipmentAnnualCost := roundTo equipmentAnnualCostRaw 2
  let totalCurrentCost := roundTo (laborCost + fuelCost + equipmentAnnualCost) 2
  let laborSavings : ℚ :=
    if i.maintenanceType = "outsourced" then
      roundTo (laborCost * (i.automationLevel / 100) * (85/100)) 2
    else
      roundTo (laborCost * (i.automationLevel / 100) * (i.laborReduction / 100)) 2
  let fuelSavings : ℚ :=
    if i.maintenanceType = "outsourced" then 0
    else roundTo (fuelCost * (i.automationLevel / 100)) 2
  let equipmentSavings : ℚ :=
    if i.maintenanceType = "outsourced" then 0
    else roundTo (equipmentAnnualCost * (i.automationLevel / 100) * (1/2)) 2
  let grossSavings := roundTo (laborSavings + fuelSavings + equipmentSavings) 2
  let roboticMaintenanceCost :=
    roundTo (i.acreage * (i.automationLevel / 100) * i.roboticMaintenance * 12) 2
  let electricityCost :=
    roundTo (i.acreage * (i.automationLevel / 100) * i.electricityPerAcre * (12/100)
      * i.mowsPerWeek * i.seasonWeeks) 2
  let totalNewCosts := roundTo (roboticMaintenanceCost + electricityCost) 2
  let netAnnualSavings := roundTo (grossSavings - totalNewCosts) 2
  let currentMowingHours : ℚ :=
    ((round (i.acreage * (i.mowingTimePerAcre / 60) * i.mowsPerWeek * i.seasonWeeks) : ℤ) : ℚ)
  let laborHoursSaved : ℚ :=
    ((round (currentMowingHours * (i.automationLevel / 100) * (i.laborReduction / 100)) : ℤ) : ℚ)
  let currentFTE : ℚ := if i.maintenanceType = "outsourced" then 0 else i.employees
  let reducedFTE : ℚ :=
    if i.maintenanceType = "outsourced" then 0
    else max 0 (roundTo (currentFTE * (1 - (i.automationLevel / 100) * (i.laborReduction / 100))) 1)
  let co2Reduced :=
    roundTo (i.acreage * (i.automationLevel / 100) * i.fuelPerAcre * i.co2PerGallon
      * i.mowsPerWeek * i.seasonWeeks) 2
  let fuelGallonsSaved :=
    roundTo (i.acreage * (i.automationLevel / 100) * i.fuelPerAcre
      * i.mowsPerWeek * i.seasonWeeks) 2
  let treeEquivalents := roundTo (co2Reduced / 48) 2
  { currentCosts := ⟨laborCost, fuelCost, equipmentAnnualCost, totalCurrentCost⟩
    savings := ⟨laborSavings, fuelSavings, equipmentSavings, grossSavings⟩
    newCosts := ⟨roboticMaintenanceCost, electricityCost, totalNewCosts⟩
    netAnnualSavings := netAnnualSavings
    labor := ⟨currentMowingHours, laborHoursSaved, currentFTE, reducedFTE⟩
    environmental := ⟨co2Reduced, fuelGallonsSaved, treeEquivalents, 30⟩
    inputs := i
    internal := ⟨laborCost, fuelCost, equipmentAnnualCost,
      roboticMaintenanceCost, electricityCost, totalNewCosts⟩ }

/-- A metric value that is either a finite rational or the positive
infinity sentinel produced on division by zero avoidance. -/
inductive XVal where
  | fin (q : ℚ)
  | inf
deriving DecidableEq

structure InvestmentMetrics where
  roi : XVal
  paybackYears : XVal
  paybackMonths : XVal
  totalInvestment : ℚ
  annualServiceCost : ℚ
deriving DecidableEq

/-- The withInvestment closure of calculateROI, parameterised by the
netAnnualSavings it captures.  The two money arguments go through
Math.max(Number(x) or-else 0, 0); calling with the argument omitted is
RawNum.absent. -/
def withInvestment (netAnnualSavings : ℚ)
    (totalInvestment annualServiceCost : RawNum) : InvestmentMetrics :=
  let tI := max (numOr totalInvestment 0) 0
  let aSC := max (numOr annualServiceCost 0) 0
  let effectiveSavings := netAnnualSavings - aSC
  if tI = 0 then
    { roi := if 0 < effectiveSavings then .inf else .fin 0
      paybackYears := .fin 0
      paybackMonths := .fin 0
      totalInvestment := tI
      annualServiceCost := aSC }
  else if effectiveSavings ≤ 0 then
    { roi := .fin (roundTo (effectiveSavings / tI * 100) 2)
      paybackYears := .inf
      paybackMonths := .inf
      totalInvestment := tI
      annualServiceCost := aSC }
  else
    let paybackYears := roundTo (tI / effectiveSavings) 2
    { roi := .fin (roundTo (effectiveSavings / tI * 100) 2)
      paybackYears := .fin paybackYears
      paybackMonths := .fin (roundTo (paybackYears * 12) 1)
      totalInvestment := tI
      annualServiceCost := aSC }

structure ProjectionYear where
  year : ℕ
  laborMultiplier : ℚ
  fuelMultiplier : ℚ
  traditionalCost : ℚ
  automatedCost : ℚ
  annualSavings : ℚ
  cumulativeTraditional : ℚ
  cumulativeAutomated : ℚ
  cumulativeSavings : ℚ
deriving DecidableEq

/-- A zero projection entry, used as the default of List.getD. -/
def noEntry : ProjectionYear := ⟨0, 0, 0, 0, 0, 0, 0, 0, 0⟩

/-- The traditional (status-quo) cost of one projection year; the
equipment component does not compound. -/
def tradCost (i : ResolvedInputs) (c : InternalCosts) (year : ℕ) : ℚ :=
  roundTo (c.laborCost * (1 + i.annualLaborIncrease / 100) ^ year
    + c.fuelCost * (1 + i.annualFuelIncrease / 100) ^ year
    + c.equipmentAnnualCost) 2

/-- The automated cost of one projection year (aSC is the sanitized
annual service cost). -/
def autoCost (i : ResolvedInputs) (c : InternalCosts) (aSC : ℚ) (year : ℕ) : ℚ :=
  roundTo (c.laborCost * (1 - (i.automationLevel / 100) * (i.laborReduction / 100))
      * (1 + i.annualLaborIncrease / 100) ^ year
    + c.fuelCost * (1 - i.automationLevel / 100) * (1 + i.annualFuelIncrease / 100) ^ year
    + c.equipmentAnnualCost * (1 - (i.automationLevel / 100) * (1/2))
    + c.totalNewCosts + aSC) 2

/-- The body of one iteration of the year loop of calculateProjection.
prevT and prevA are the running cumulative sums before this year. -/
def projectionEntry (i : ResolvedInputs) (c : InternalCosts) (tI aSC : ℚ)
    (year : ℕ) (prevT prevA : ℚ) : ProjectionYear :=
  let laborMultiplier := (1 + i.annualLaborIncrease / 100) ^ year
  let fuelMultiplier := (1 + i.annualFuelIncrease / 100) ^ year
  let traditionalCost := tradCost i c year
  let automatedCost := autoCost i c aSC year
  { year := year
    laborMultiplier := roundTo laborMultiplier 4
    fuelMultiplier := roundTo fuelMultiplier 4
    traditionalCost := traditionalCost
    automatedCost := automatedCost
    annualSavings := roundTo (traditionalCost - automatedCost) 2
    cumulativeTraditional := roundTo (prevT + traditionalCost) 2
    cumulativeAutomated := roundTo (prevA + automatedCost + tI) 2
    cumulativeSavings := roundTo (prevT + traditionalCost - (prevA + automatedCost + tI)) 2 }

/-- The 5-year projection of calculator.js (calculateProjection), with
the year 1..5 loop unrolled and the running cumulative sums passed
explicitly.  The two money arguments are numeric, so their sanitization
Math.max(Number(x) or-else 0, 0) is max with 0. -/
def calculateProjection (base : ROIResult) (totalInvestment annualServiceCost : ℚ) :
    List ProjectionYear :=
  let tI := max totalInvestment 0
  let aSC := max annualServiceCost 0
  let i := base.inputs
  let c := base.internal
  [ projectionEntry i c tI aSC 1 0 0,
    projectionEntry i c tI aSC 2 (tradCost i c 1) (autoCost i c aSC 1),
    projectionEntry i c tI aSC 3 (tradCost i c 1 + tradCost i c 2)
      (autoCost i c aSC 1 + autoCost i c aSC 2),
    projectionEntry i c tI aSC 4 (tradCost i c 1 + tradCost i c 2 + tradCost i c 3)
      (autoCost i c aSC 1 + autoCost i c aSC 2 + autoCost i c aSC 3),
    projectionEntry i c tI aSC 5
      (tradCost i c 1 + tradCost i c 2 + tradCost i c 3 + tradCost i c 4)
      (autoCost i c aSC 1 + autoCost i c aSC 2 + autoCost i c aSC 3 + autoCost i c aSC 4) ]

/-- One model of the equipment catalog. -/
structure EModel where
  id : String
  name : String
  shortName : String
  price : ℚ
  coverage : ℚ
  description : String
  terrain : String
  categories : List String
deriving DecidableEq

/-- A named price entry of the accessory, service or installation tables. -/
structure PriceItem where
  name : String
  price : ℚ
deriving DecidableEq

structure Accessories where
  referenceStation : PriceItem
  housing : PriceItem
deriving DecidableEq

structure ServicesTable where
  annualMaintenance : PriceItem
  remoteSupport : PriceItem
  winterStorage : PriceItem
deriving DecidableEq

structure InstallationTable where
  perUnit : PriceItem
  flat : PriceItem
deriving DecidableEq

structure EquipmentData where
  models : List EModel
  accessories : Accessories
  services : ServicesTable
  installation : InstallationTable
deriving DecidableEq

/-- The built-in fallback catalog (FALLBACK_DATA) of the equipment
module, used when equipment.json is not loaded. -/
def FALLBACK_DATA : EquipmentData :=
  { models :=
      [ ⟨"520-epos", "Husqvarna Automower 520 EPOS", "520 EPOS", 329999/100, 125/100,
          "Best for small commercial properties", "flat", ["commercial"]⟩,
        ⟨"520h-epos", "Husqvarna Automower 520H EPOS", "520H EPOS", 329999/100, 125/100,
          "Best for hilly commercial properties and golf courses", "hilly",
          ["commercial", "golf"]⟩,
        ⟨"535-awd-epos", "Husqvarna Automower 535 AWD EPOS", "535 AWD EPOS", 499999/100,
          125/100, "Best for rough terrain and challenging landscapes", "rough",
          ["commercial"]⟩,
        ⟨"550-epos", "Husqvarna Automower 550 EPOS", "550 EPOS", 582999/100, 250/100,
          "Best for large commercial properties and athletic fields", "flat",
          ["commercial", "athletic"]⟩,
        ⟨"550h-epos", "Husqvarna Automower 550H EPOS", "550H EPOS", 529999/100, 250/100,
          "Best for large hilly properties and golf courses", "hilly",
          ["commercial", "golf"]⟩ ]
    accessories :=
      { referenceStation := ⟨"EPOS RS5 Reference Station", 89999/100⟩
        housing := ⟨"Automower House (400/500 series)", 17199/100⟩ }
    services :=
      { annualMaintenance := ⟨"Annual Onsite Maintenance", 249⟩
        remoteSupport := ⟨"Remote Support", 9499/100⟩
        winterStorage := ⟨"Winter Storage & Service", 14999/100⟩ }
    installation :=
      { perUnit := ⟨"Site Installation & Mapping", 1500⟩
        flat := ⟨"Training & App Configuration", 500⟩ } }

/-- Model lookup by shortName (getModelByShortName). -/
def getModelByShortName (d : EquipmentData) (shortName : String) : Option EModel :=
  d.models.find? (fun m => m.shortName == shortName)

/-- The model subobject returned in a recommendation. -/
structure RecModel where
  name : String
  shortName : String
  price : ℚ
  coverage : ℚ
  description : String
deriving DecidableEq

structure RecCosts where
  mowers : ℚ
  referenceStation : ℚ
  housing : ℚ
  installation : ℚ
  setup : ℚ
  totalEquipment : ℚ
  totalInvestment : ℚ
  annualService : ℚ
deriving DecidableEq

/-- One line of the investment or annual-service breakdown. -/
structure CostLine where
  label : String
  amount : ℚ
deriving DecidableEq

structure EquipmentRecommendation where
  model : RecModel
  unitsNeeded : ℤ
  targetAcreage : ℚ
  costs : RecCosts
  breakdown : List CostLine
  annualBreakdown : List CostLine
deriving DecidableEq

/-- The toLowerCase coercion on strings, written as a character map so
that it evaluates inside the kernel. -/
def lowerString (s : String) : String :=
  ⟨s.data.map Char.toLower⟩

/-- The core recommendation logic (recommendEquipment) run against the
built-in fallback catalog, which is the module state when the external
equipment.json has not been loaded.  Inputs are sanitized exactly as in
the source: acreage to at least 0, automationLevel clamped to 0..100,
propertyType defaulted when empty and lower-cased. -/
def recommendEquipment (propertyType : String) (acreage automationLevel : ℚ)
    (isHilly : Bool) : EquipmentRecommendation :=
  let data := FALLBACK_DATA
  let acreage := max 0 acreage
  let automationLevel := min 100 (max 0 automationLevel)
  let propertyType := lowerString (if propertyType = "" then "commercial" else propertyType)
  let targetAcreage := acreage * (automationLevel / 100)
  let modelShortName :=
    if propertyType = "golf" ∨ isHilly then
      if targetAcreage ≤ 2 then "520H EPOS" else "550H EPOS"
    else
      if targetAcreage ≤ 2 then "520 EPOS" else "550 EPOS"
  let model := (getModelByShortName data modelShortName).getD
    (data.models.getD 0 ⟨"", "", "", 0, 0, "", "", []⟩)
  let unitsNeeded : ℤ := max 1 ⌈targetAcreage / model.coverage⌉
  let equipmentCost := (unitsNeeded : ℚ) * model.price
  let referenceStationCost := data.accessories.referenceStation.price
  let housingCost := (unitsNeeded : ℚ) * data.accessories.housing.price
  let totalEquipmentCost := equipmentCost + referenceStationCost + housingCost
  let installationCost := (unitsNeeded : ℚ) * data.installation.perUnit.price
  let setupCost := data.installation.flat.price
  let annualMaintenanceCost := (unitsNeeded : ℚ) * data.services.annualMaintenance.price
  let remoteSupportCost := data.services.remoteSupport.price
  let winterStorageCost := (unitsNeeded : ℚ) * data.services.winterStorage.price
  let annualServiceCost := annualMaintenanceCost + remoteSupportCost + winterStorageCost
  let totalInvestment := totalEquipmentCost + installationCost + setupCost
  let unitSuffix := if 1 < unitsNeeded then " × " ++ toString unitsNeeded else ""
  { model := ⟨model.name, model.shortName, model.price, model.coverage, model.description⟩
    unitsNeeded := unitsNeeded
    targetAcreage := targetAcreage
    costs := ⟨equipmentCost, referenceStationCost, housingCost, installationCost, setupCost,
      totalEquipmentCost, totalInvestment, annualServiceCost⟩
    breakdown :=
      [ ⟨model.name ++ unitSuffix, equipmentCost⟩,
        ⟨data.accessories.referenceStation.name, referenceStationCost⟩,
        ⟨data.accessories.housing.name ++ unitSuffix, housingCost⟩,
        ⟨data.installation.perUnit.name ++ unitSuffix, installationCost⟩,
        ⟨data.installation.flat.name, setupCost⟩ ]
    annualBreakdown :=
      [ ⟨data.services.annualMaintenance.name ++ unitSuffix, annualMaintenanceCost⟩,
        ⟨data.services.remoteSupport.name, remoteSupportCost⟩,
        ⟨data.services.winterStorage.name ++ unitSuffix, winterStorageCost⟩ ] }

/-! Helper lemmas about rounding, clamping and the resolver patterns. -/

/-- Rounding zero gives zero. -/
lemma roundTo_zero (d : ℕ) : roundTo 0 d = 0 := by
  simp [roundTo]

/-- A rational is a whole number of cents. -/
def Cents (q : ℚ) : Prop := ∃ n : ℤ, q = n / 100

lemma Cents.add {a b : ℚ} (ha : Cents a) (hb : Cents b) : Cents (a + b) := by
  obtain ⟨m, rfl⟩ := ha
  obtain ⟨n, rfl⟩ := hb
  exact ⟨m + n, by push_cast; ring⟩

lemma Cents.sub {a b : ℚ} (ha : Cents a) (hb : Cents b) : Cents (a - b) := by
  obtain ⟨m, rfl⟩ := ha
  obtain ⟨n, rfl⟩ := hb
  exact ⟨m - n, by push_cast; ring⟩

lemma cents_zero : Cents 0 := ⟨0, by norm_num⟩

/-- Two-decimal rounding always lands on a whole number of cents. -/
lemma cents_roundTo (q : ℚ) : Cents (roundTo q 2) :=
  ⟨round (q * 10 ^ 2), by norm_num [roundTo]⟩

/-- Two-decimal rounding is the identity on whole numbers of cents. -/
lemma roundTo_cents_eq {q : ℚ} (h : Cents q) : roundTo q 2 = q := by
  obtain ⟨n, rfl⟩ := h
  rw [roundTo, show ((10:ℚ) ^ 2) = 100 by norm_num,
    div_mul_cancel₀ _ (by norm_num : (100:ℚ) ≠ 0), round_intCast]

lemma roundTo_nonneg {q : ℚ} (d : ℕ) (h : 0 ≤ q) : 0 ≤ roundTo q d := by
  have h1 : (0:ℚ) ≤ q * 10 ^ d := mul_nonneg h (by positivity)
  have h2 : (0:ℤ) ≤ round (q * 10 ^ d) := by
    rw [round_eq]
    exact Int.le_floor.mpr (by push_cast; linarith)
  exact div_nonneg (by exact_mod_cast h2) (by positivity)

lemma roundTo_nonpos {q : ℚ} (d : ℕ) (h : q ≤ 0) : roundTo q d ≤ 0 := by
  have h1 : q * 10 ^ d ≤ 0 := mul_nonpos_iff.mpr (Or.inr ⟨h, by positivity⟩)
  have h2 : round (q * 10 ^ d) ≤ 0 := by
    rw [round_eq]
    have h3 : (⌊q * 10 ^ d + 1/2⌋ : ℤ) < 1 := Int.floor_lt.mpr (by push_cast; linarith)
    omega
  exact div_nonpos_iff.mpr (Or.inr ⟨by exact_mod_cast h2, by positivity⟩)

/-- The clamp helper stays inside its interval. -/
lemma clampQ_mem (v lo hi : ℚ) (h : lo ≤ hi) :
    lo ≤ clampQ v lo hi ∧ clampQ v lo hi ≤ hi :=
  ⟨le_max_left _ _, max_le h (min_le_left _ _)⟩

/-- The undefined-check clamp pattern yields an in-range value whenever
the raw value is not a present non-numeric one. -/
lemma jsClamp_orDefault_within (x : RawNum) (hx : x ≠ RawNum.nonNumeric) (d lo hi : ℚ)
    (h : lo ≤ hi) : (jsClamp (orDefault x d) lo hi).Within lo hi := by
  cases x with
  | absent => exact clampQ_mem d lo hi h
  | nonNumeric => exact absurd rfl hx
  | num q => exact clampQ_mem q lo hi h

/-- The undefined-check max pattern yields a nonnegative value whenever
the raw value is not a present non-numeric one. -/
lemma jsMax_orDefault_atLeast (x : RawNum) (hx : x ≠ RawNum.nonNumeric) (d : ℚ) :
    (jsMax (orDefault x d) 0).AtLeast 0 := by
  cases x with
  | absent => exact le_max_right d 0
  | nonNumeric => exact absurd rfl hx
  | num q => exact le_max_right q 0

/-- A raw input map with every field absent. -/
def rawAllAbsent : RawInputs :=
  { propertyType := none, maintenanceType := none, isLeased := false,
    acreage := .absent, seasonWeeks := .absent, employees := .absent, hourlyRate := .absent,
    mowingTimePercent := .absent, monthlyContract := .absent, benefitsRate := .absent,
    fuelCostPerGallon := .absent, laborReduction := .absent, bufferTime := .absent,
    annualLaborIncrease := .absent, fuelPerAcre := .absent, annualFuelIncrease := .absent,
    baseEquipmentCost := .absent, equipmentCostPerAcre := .absent, maintenanceRate := .absent,
    insuranceRate := .absent, leasingPremium := .absent, roboticMaintenance := .absent,
    electricityPerAcre := .absent, co2PerGallon := .absent, mowingTimePerAcre := .absent,
    automationLevel := .absent, desiredMowingTime := .absent }

/-- The lower-casing of the default property type, precomputed for the
concrete equipment evaluations. -/
lemma lowerString_commercial : lowerString "commercial" = "commercial" := by decide

/-- C3.  The resolver keeps any non-empty raw propertyType string even
when it is unrecognized; only an absent or empty raw value becomes
commercial; maintenanceType is outsourced exactly on the literal
outsourced and inhouse otherwise. -/
theorem C3_type_fields (raw : RawInputs) :
    ((raw.propertyType = none ∨ raw.propertyType = some "") →
      (resolveInputs raw).propertyType = "commercial") ∧
    (∀ s, raw.propertyType = some s → s ≠ "" →
      (resolveInputs raw).propertyType = s) ∧
    ((resolveInputs raw).maintenanceType = "outsourced" ↔
      raw.maintenanceType = some "outsourced") ∧
    (raw.maintenanceType ≠ some "outsourced" →
      (resolveInputs raw).maintenanceType = "inhouse") := by
  refine ⟨?_, ?_, ?_, ?_⟩
  · rintro (h | h) <;> simp [resolveInputs, h]
  · intro s hs hne
    simp [resolveInputs, hs, hne]
  · by_cases h : raw.maintenanceType = some "outsourced" <;> simp [resolveInputs, h]
  · intro h
    simp [resolveInputs, h]

/-- C3 witness: a recognized non-default raw propertyType is kept. -/
theorem C3_witness :
    (resolveInputs { rawAllAbsent with propertyType := some "golf" }).propertyType = "golf" :=
  (C3_type_fields _).2.1 "golf" rfl (by decide)

/-- C3 counterexample: an unrecognized raw propertyType is returned
verbatim, not replaced by commercial as the claim states. -/
theorem C3_counterexample :
    (resolveInputs { rawAllAbsent with propertyType := some "mansion" }).propertyType
      = "mansion" ∧ "mansion" ≠ "commercial" := by
  constructor
  · simp [resolveInputs]
  · decide

/-- C10.  A raw seasonWeeks coercing to 0 or NaN resolves to 30; the
clamp to the minimum 1 fires exactly when the post-default coercion is
below 1, which includes negative values, not only values in (0,1). -/
theorem C10_seasonWeeks_clamp (raw : RawInputs) :
    ((jsNumber raw.seasonWeeks = JNum.nan ∨ jsNumber raw.seasonWeeks = JNum.fin 0) →
      (resolveInputs raw).seasonWeeks = 30) ∧
    ((resolveInputs raw).seasonWeeks ≠ numOr raw.seasonWeeks 30 ↔
      numOr raw.seasonWeeks 30 < 1) := by
  have hsw : (resolveInputs raw).seasonWeeks = max (numOr raw.seasonWeeks 30) 1 := rfl
  constructor
  · intro h
    have h30 : numOr raw.seasonWeeks 30 = 30 := by
      rcases h with h | h <;> simp [numOr, jsOr, h]
    rw [hsw, h30]
    norm_num
  · rw [hsw]
    constructor
    · intro hne
      by_contra hlt
      push_neg at hlt
      exact hne (max_eq_left hlt)
    · intro hlt
      rw [max_eq_right hlt.le]
      exact (ne_of_lt hlt).symm

/-- C10 witness: a user-supplied seasonWeeks of 0 resolves to 30. -/
theorem C10_witness :
    (resolveInputs { rawAllAbsent with seasonWeeks := RawNum.num 0 }).seasonWeeks = 30 :=
  (C10_seasonWeeks_clamp _).1 (Or.inr rfl)

/-- C10 counterexample: a negative raw seasonWeeks is clamped to 1 even
though its coercion is not strictly between 0 and 1. -/
theorem C10_counterexample :
    (resolveInputs { rawAllAbsent with seasonWeeks := RawNum.num (-5) }).seasonWeeks = 1 ∧
    numOr (RawNum.num (-5)) 30 = -5 ∧
    ¬(0 < numOr (RawNum.num (-5)) 30 ∧ numOr (RawNum.num (-5)) 30 < 1) := by
  refine ⟨?_, ?_, ?_⟩
  · show max (numOr (RawNum.num (-5)) 30) 1 = 1
    norm_num [numOr, jsOr, jsNumber]
  · norm_num [numOr, jsOr, jsNumber]
  · norm_num [numOr, jsOr, jsNumber]

/-- A concrete valid resolved input record (all defaults, zero acreage
and zero staff) used by witnesses and counterexamples. -/
def cinp : ResolvedInputs :=
  { propertyType := "commercial", acreage := 0, seasonWeeks := 30, mowsPerWeek := 1,
    maintenanceType := "inhouse", employees := 0, hourlyRate := 0, mowingTimePercent := 60,
    isLeased := false, monthlyContract := 0, benefitsRate := 12, fuelCostPerGallon := 4,
    laborReduction := 85, bufferTime := 15, annualLaborIncrease := 0, fuelPerAcre := 1,
    annualFuelIncrease := 0, baseEquipmentCost := 0, equipmentCostPerAcre := 0,
    maintenanceRate := 10, insuranceRate := 5, leasingPremium := 7, roboticMaintenance := 3,
    electricityPerAcre := 2, co2PerGallon := 19, mowingTimePerAcre := 45,
    automationLevel := 50, desiredMowingTime := 20 }

/-- cinp with a 2.5 percent annual labor increase. -/
def cinp2 : ResolvedInputs := { cinp with annualLaborIncrease := 5/2 }

/-- cinp outsourced with a whole-dollar monthly contract. -/
def cinp6 : ResolvedInputs :=
  { cinp with maintenanceType := "outsourced", monthlyContract := 1000 }

/-- cinp outsourced with a fractional-cent monthly contract. -/
def cinp6c : ResolvedInputs :=
  { cinp with maintenanceType := "outsourced", monthlyContract := 1/1000 }

/-- C6 (amended).  On the outsourced branch fuel and equipment costs and
savings are zero, the labor cost is the 2dp rounding of twelve monthly
contract payments, and labor savings use the fixed 0.85 factor. -/
theorem C6_outsourced_costs (i : ResolvedInputs) (h : i.maintenanceType = "outsourced") :
    (calculateROI i).currentCosts.fuel = 0 ∧
    (calculateROI i).currentCosts.equipment = 0 ∧
    (calculateROI i).savings.fuel = 0 ∧
    (calculateROI i).savings.equipment = 0 ∧
    (calculateROI i).currentCosts.labor = roundTo (i.monthlyContract * 12) 2 ∧
    (calculateROI i).savings.labor =
      roundTo ((calculateROI i).currentCosts.labor * (i.automationLevel / 100) * (85/100)) 2 := by
  simp [calculateROI, h, roundTo_zero]

/-- C6 witness at a concrete outsourced input. -/
theorem C6_witness :
    (calculateROI cinp6).currentCosts.fuel = 0 ∧
    (calculateROI cinp6).currentCosts.labor = roundTo (cinp6.monthlyContract * 12) 2 :=
  ⟨(C6_outsourced_costs cinp6 rfl).1, (C6_outsourced_costs cinp6 rfl).2.2.2.2.1⟩

/-- C6 counterexample: with a monthly contract of 0.001 dollars the
returned labor cost is the rounded 0.01, not monthlyContract times 12 =
0.012 as the claim states. -/
theorem C6_counterexample :
    cinp6c.maintenanceType = "outsourced" ∧
    (calculateROI cinp6c).currentCosts.labor = 1/100 ∧
    cinp6c.monthlyContract * 12 = 3/250 ∧
    ((1:ℚ)/100) ≠ 3/250 := by
  refine ⟨rfl, ?_, by norm_num [cinp6c, cinp], by norm_num⟩
  norm_num [calculateROI, cinp6c, cinp, roundTo, round_eq]

/-- C2.  The investment evaluator clamps both money arguments to at
least 0 and returns, by case on the clamped investment and the effective
savings, either the explicit infinity sentinels or the documented
rounded finite values; a nonpositive effective savings with positive
investment yields a nonpositive rounded roi. -/
theorem C2_withInvestment_cases (nAS : ℚ) (tIr aSCr : RawNum) :
    0 ≤ (withInvestment nAS tIr aSCr).totalInvestment ∧
    0 ≤ (withInvestment nAS tIr aSCr).annualServiceCost ∧
    ((withInvestment nAS tIr aSCr).totalInvestment = 0 →
      (withInvestment nAS tIr aSCr).paybackYears = XVal.fin 0 ∧
      (withInvestment nAS tIr aSCr).paybackMonths = XVal.fin 0 ∧
      (0 < nAS - (withInvestment nAS tIr aSCr).annualServiceCost →
        (withInvestment nAS tIr aSCr).roi = XVal.inf) ∧
      (nAS - (withInvestment nAS tIr aSCr).annualServiceCost ≤ 0 →
        (withInvestment nAS tIr aSCr).roi = XVal.fin 0)) ∧
    (0 < (withInvestment nAS tIr aSCr).totalInvestment →
      nAS - (withInvestment nAS tIr aSCr).annualServiceCost ≤ 0 →
      (withInvestment nAS tIr aSCr).paybackYears = XVal.inf ∧
      (withInvestment nAS tIr aSCr).paybackMonths = XVal.inf ∧
      (withInvestment nAS tIr aSCr).roi = XVal.fin (roundTo
        ((nAS - (withInvestment nAS tIr aSCr).annualServiceCost) /
          (withInvestment nAS tIr aSCr).totalInvestment * 100) 2) ∧
      roundTo ((nAS - (withInvestment nAS tIr aSCr).annualServiceCost) /
          (withInvestment nAS tIr aSCr).totalInvestment * 100) 2 ≤ 0) ∧
    (0 < (withInvestment nAS tIr aSCr).totalInvestment →
      0 < nAS - (withInvestment nAS tIr aSCr).annualServiceCost →
      (withInvestment nAS tIr aSCr).roi = XVal.fin (roundTo
        ((nAS - (withInvestment nAS tIr aSCr).annualServiceCost) /
          (withInvestment nAS tIr aSCr).totalInvestment * 100) 2) ∧
      (withInvestment nAS tIr aSCr).paybackYears = XVal.fin (roundTo
        ((withInvestment nAS tIr aSCr).totalInvestment /
          (nAS - (withInvestment nAS tIr aSCr).annualServiceCost)) 2) ∧
      (withInvestment nAS tIr aSCr).paybackMonths = XVal.fin (roundTo (roundTo
        ((withInvestment nAS tIr aSCr).totalInvestment /
          (nAS - (withInvestment nAS tIr aSCr).annualServiceCost)) 2 * 12) 1)) := by
  have ht0 : (0:ℚ) ≤ max (numOr tIr 0) 0 := le_max_right _ _
  have ha0 : (0:ℚ) ≤ max (numOr aSCr 0) 0 := le_max_right _ _
  unfold withInvestment
  by_cases h1 : max (numOr tIr 0) 0 = 0
  · rw [if_pos h1]
    refine ⟨ht0, ha0, fun _ => ⟨rfl, rfl, fun hs => ?_, fun hs => ?_⟩,
      fun hpos => absurd (h1 ▸ hpos) (lt_irrefl 0), fun hpos => absurd (h1 ▸ hpos) (lt_irrefl 0)⟩
    · show (if 0 < nAS - max (numOr aSCr 0) 0 then XVal.inf else XVal.fin 0) = XVal.inf
      exact if_pos hs
    · show (if 0 < nAS - max (numOr aSCr 0) 0 then XVal.inf else XVal.fin 0) = XVal.fin 0
      exact if_neg (not_lt.mpr hs)
  · by_cases h2 : nAS - max (numOr aSCr 0) 0 ≤ 0
    · rw [if_neg h1, if_pos h2]
      refine ⟨ht0, ha0, fun h0 => absurd h0 h1, fun _ _ => ⟨rfl, rfl, rfl, ?_⟩,
        fun _ hpos => absurd h2 (not_le.mpr hpos)⟩
      have hdiv : (nAS - max (numOr aSCr 0) 0) / max (numOr tIr 0) 0 ≤ 0 :=
        div_nonpos_iff.mpr (Or.inr ⟨h2, ht0⟩)
      exact roundTo_nonpos 2 (by linarith)
    · rw [if_neg h1, if_neg h2]
      exact ⟨ht0, ha0, fun h0 => absurd h0 h1, fun _ hnp => absurd hnp h2,
        fun _ _ => ⟨rfl, rfl, rfl⟩⟩

/-- C2 witness: the zero-investment branch yields the infinite roi and
the nonpositive-savings branch yields the infinite payback. -/
theorem C2_witness :
    (withInvestment 1000 (RawNum.num 0) RawNum.absent).roi = XVal.inf ∧
    (withInvestment 500 (RawNum.num 10000) (RawNum.num 600)).paybackYears = XVal.inf := by
  constructor
  · exact ((C2_withInvestment_cases 1000 (RawNum.num 0) RawNum.absent).2.2.1
      (by norm_num [withInvestment, numOr, jsOr, jsNumber])).2.2.1
      (by norm_num [withInvestment, numOr, jsOr, jsNumber])
  · exact ((C2_withInvestment_cases 500 (RawNum.num 10000) (RawNum.num 600)).2.2.2.1
      (by norm_num [withInvestment, numOr, jsOr, jsNumber])
      (by norm_num [withInvestment, numOr, jsOr, jsNumber])).1

/-- C4 (amended).  The projection has exactly 5 entries, years 1..5 in
order; the stored multiplier fields are the 4dp roundings of the
compounded multipliers; traditionalCost uses the unrounded multipliers
with a non-compounding equipment component, and automatedCost uses the
documented reduction factors plus new costs and the clamped annual
service cost. -/
theorem C4_projection_entries (inp : ResolvedInputs) (tI aSC : ℚ) :
    (calculateProjection (calculateROI inp) tI aSC).length = 5 ∧
    (∀ k, k < 5 →
      ((calculateProjection (calculateROI inp) tI aSC).getD k noEntry).year = k + 1 ∧
      ((calculateProjection (calculateROI inp) tI aSC).getD k noEntry).laborMultiplier =
        roundTo ((1 + inp.annualLaborIncrease / 100) ^ (k + 1)) 4 ∧
      ((calculateProjection (calculateROI inp) tI aSC).getD k noEntry).fuelMultiplier =
        roundTo ((1 + inp.annualFuelIncrease / 100) ^ (k + 1)) 4 ∧
      ((calculateProjection (calculateROI inp) tI aSC).getD k noEntry).traditionalCost =
        roundTo ((calculateROI inp).internal.laborCost
            * (1 + inp.annualLaborIncrease / 100) ^ (k + 1)
          + (calculateROI inp).internal.fuelCost
            * (1 + inp.annualFuelIncrease / 100) ^ (k + 1)
          + (calculateROI inp).internal.equipmentAnnualCost) 2 ∧
      ((calculateProjection (calculateROI inp) tI aSC).getD k noEntry).automatedCost =
        roundTo ((calculateROI inp).internal.laborCost
            * (1 - (inp.automationLevel / 100) * (inp.laborReduction / 100))
            * (1 + inp.annualLaborIncrease / 100) ^ (k + 1)
          + (calculateROI inp).internal.fuelCost * (1 - inp.automationLevel / 100)
            * (1 + inp.annualFuelIncrease / 100) ^ (k + 1)
          + (calculateROI inp).internal.equipmentAnnualCost
            * (1 - (inp.automationLevel / 100) * (1/2))
          + (calculateROI inp).internal.totalNewCosts + max aSC 0) 2) := by
  refine ⟨rfl, ?_⟩
  intro k hk
  interval_cases k <;> exact ⟨rfl, rfl, rfl, rfl, rfl⟩

/-- C4 witness at a concrete input and year. -/
theorem C4_witness :
    ((calculateProjection (calculateROI cinp) 5 7).getD 0 noEntry).year = 0 + 1 :=
  ((C4_projection_entries cinp 5 7).2 0 (by norm_num)).1

/-- C4 counterexample: with a 2.5 percent labor increase the year-2
entry stores laborMultiplier 1.0506 (4dp rounding), not the exact
compounded multiplier 1.050625 the claim states. -/
theorem C4_counterexample :
    ((calculateProjection (calculateROI cinp2) 0 0).getD 1 noEntry).laborMultiplier
        = 5253/5000 ∧
    (1 + cinp2.annualLaborIncrease / 100) ^ (1 + 1) = 1050625/1000000 ∧
    (5253/5000 : ℚ) ≠ 1050625/1000000 := by
  refine ⟨?_, by norm_num [cinp2, cinp], by norm_num⟩
  norm_num [calculateProjection, projectionEntry, calculateROI, cinp2, cinp,
    roundTo, round_eq, List.getD]

lemma calculateROI_internal_nonneg (i : ResolvedInputs) (hv : i.Valid) :
    0 ≤ (calculateROI i).internal.laborCost ∧ 0 ≤ (calculateROI i).internal.fuelCost ∧
    0 ≤ (calculateROI i).internal.equipmentAnnualCost ∧
    0 ≤ (calculateROI i).internal.totalNewCosts := by
  obtain ⟨-, -, hacr, hsw, hmpw, hemp, hrate, hmtp0, -, hmc, hbr0, -, hfcg,
    hlr0, -, hbt0, -, hli0, -, hfpa, hfi0, -, hbec, hecpa, hmr0, -, hir0, -,
    hlp0, -, hrm, hepa, hco2, -, haL0, -, -, -⟩ := hv
  have hsw0 : (0:ℚ) ≤ i.seasonWeeks := by linarith
  have haL : (0:ℚ) ≤ i.automationLevel / 100 := by linarith
  have h1 : (0:ℚ) ≤ 1 + i.benefitsRate / 100 := by linarith
  have h2 : (0:ℚ) ≤ 1 + i.bufferTime / 100 := by linarith
  have hmtp : (0:ℚ) ≤ i.mowingTimePercent / 100 := by linarith
  have hlab : (calculateROI i).internal.laborCost =
      roundTo (if i.maintenanceType = "outsourced" then i.monthlyContract * 12
        else i.employees * i.hourlyRate * (1 + i.benefitsRate / 100) * 40 * i.seasonWeeks
          * (i.mowingTimePercent / 100) * (1 + i.bufferTime / 100)) 2 := rfl
  have hfue : (calculateROI i).internal.fuelCost =
      roundTo (if i.maintenanceType = "outsourced" then 0
        else i.acreage * i.fuelPerAcre * i.mowsPerWeek * i.seasonWeeks
          * i.fuelCostPerGallon) 2 := rfl
  have hequ : (calculateROI i).internal.equipmentAnnualCost =
      roundTo (if i.maintenanceType = "outsourced" then 0
        else if i.isLeased then
          (i.baseEquipmentCost + i.equipmentCostPerAcre * i.acreage)
            * (i.maintenanceRate / 100 + i.insuranceRate / 100) * (1 + i.leasingPremium / 100)
        else
          (i.baseEquipmentCost + i.equipmentCostPerAcre * i.acreage)
            * (i.maintenanceRate / 100 + i.insuranceRate / 100)) 2 := rfl
  have hnew : (calculateROI i).internal.totalNewCosts =
      roundTo (roundTo (i.acreage * (i.automationLevel / 100) * i.roboticMaintenance * 12) 2
        + roundTo (i.acreage * (i.automationLevel / 100) * i.electricityPerAcre * (12/100)
            * i.mowsPerWeek * i.seasonWeeks) 2) 2 := rfl
  have hbase : (0:ℚ) ≤ (i.baseEquipmentCost + i.equipmentCostPerAcre * i.acreage)
      * (i.maintenanceRate / 100 + i.insuranceRate / 100) :=
    mul_nonneg (add_nonneg hbec (mul_nonneg hecpa hacr)) (by linarith)
  refine ⟨?_, ?_, ?_, ?_⟩
  · rw [hlab]
    apply roundTo_nonneg
    split_ifs
    · exact mul_nonneg hmc (by norm_num)
    · exact mul_nonneg (mul_nonneg (mul_nonneg (mul_nonneg (mul_nonneg
        (mul_nonneg hemp hrate) h1) (by norm_num)) hsw0) hmtp) h2
  · rw [hfue]
    apply roundTo_nonneg
    split_ifs
    · exact le_refl 0
    · exact mul_nonneg (mul_nonneg (mul_nonneg (mul_nonneg hacr hfpa) hmpw) hsw0) hfcg
  · rw [hequ]
    apply roundTo_nonneg
    split_ifs
    · exact le_refl 0
    · exact mul_nonneg hbase (by linarith)
    · exact hbase
  · rw [hnew]
    apply roundTo_nonneg
    exact add_nonneg
      (roundTo_nonneg 2 (mul_nonneg (mul_nonneg (mul_nonneg hacr haL) hrm) (by norm_num)))
      (roundTo_nonneg 2 (mul_nonneg (mul_nonneg (mul_nonneg (mul_nonneg
        (mul_nonneg hacr haL) hepa) (by norm_num)) hmpw) hsw0))

lemma autoCost_nonneg (i : ResolvedInputs) (hv : i.Valid) (aSC : ℚ) (haSC : 0 ≤ aSC)
    (y : ℕ) : 0 ≤ autoCost i (calculateROI i).internal aSC y := by
  obtain ⟨hlc, hfc, hec, htnc⟩ := calculateROI_internal_nonneg i hv
  obtain ⟨-, -, -, -, -, -, -, -, -, -, -, -, -, hlr0, hlr1, -, -, hli0, -, -,
    hfi0, -, -, -, -, -, -, -, -, -, -, -, -, -, haL0, haL1, -, -⟩ := hv
  have ha1 : i.automationLevel / 100 ≤ 1 := by linarith
  have ha0 : (0:ℚ) ≤ i.automationLevel / 100 := by linarith
  have hr1 : i.laborReduction / 100 ≤ 1 := by linarith
  have hr0 : (0:ℚ) ≤ i.laborReduction / 100 := by linarith
  have hf1 : (0:ℚ) ≤ 1 - i.automationLevel / 100 * (i.laborReduction / 100) := by
    have := mul_le_one₀ ha1 hr0 hr1
    linarith
  have hf2 : (0:ℚ) ≤ 1 - i.automationLevel / 100 := by linarith
  have hf3 : (0:ℚ) ≤ 1 - i.automationLevel / 100 * (1/2) := by linarith
  have hm1 : (0:ℚ) ≤ (1 + i.annualLaborIncrease / 100) ^ y := pow_nonneg (by linarith) y
  have hm2 : (0:ℚ) ≤ (1 + i.annualFuelIncrease / 100) ^ y := pow_nonneg (by linarith) y
  apply roundTo_nonneg
  exact add_nonneg (add_nonneg (add_nonneg (add_nonneg
    (mul_nonneg (mul_nonneg hlc hf1) hm1)
    (mul_nonneg (mul_nonneg hfc hf2) hm2))
    (mul_nonneg hec hf3)) htnc) haSC

lemma projectionEntry_savings_eq (i : ResolvedInputs) (c : InternalCosts) (tI aSC : ℚ)
    (year : ℕ) (prevT prevA : ℚ) (hT : Cents prevT) (hA : Cents prevA) (htI : Cents tI) :
    (projectionEntry i c tI aSC year prevT prevA).cumulativeSavings =
      (projectionEntry i c tI aSC year prevT prevA).cumulativeTraditional -
      (projectionEntry i c tI aSC year prevT prevA).cumulativeAutomated := by
  show roundTo (prevT + tradCost i c year - (prevA + autoCost i c aSC year + tI)) 2 =
    roundTo (prevT + tradCost i c year) 2 - roundTo (prevA + autoCost i c aSC year + tI) 2
  have h1 : Cents (prevT + tradCost i c year) := hT.add (cents_roundTo _)
  have h2 : Cents (prevA + autoCost i c aSC year + tI) :=
    (hA.add (cents_roundTo _)).add htI
  rw [roundTo_cents_eq (h1.sub h2), roundTo_cents_eq h1, roundTo_cents_eq h2]

lemma projectionEntry_cumAuto (i : ResolvedInputs) (c : InternalCosts) (tI aSC : ℚ)
    (year : ℕ) (prevT prevA : ℚ) (hA : Cents prevA) (htI : Cents tI) :
    (projectionEntry i c tI aSC year prevT prevA).cumulativeAutomated =
      prevA + autoCost i c aSC year + tI := by
  show roundTo (prevA + autoCost i c aSC year + tI) 2 = _
  exact roundTo_cents_eq ((hA.add (cents_roundTo _)).add htI)

lemma projectionEntry_automatedCost (i : ResolvedInputs) (c : InternalCosts) (tI aSC : ℚ)
    (year : ℕ) (prevT prevA : ℚ) :
    (projectionEntry i c tI aSC year prevT prevA).automatedCost = autoCost i c aSC year := rfl

lemma calculateProjection_unfold (base : ROIResult) (tI aSC : ℚ)
    (htI : 0 ≤ tI) (haSC : 0 ≤ aSC) :
    calculateProjection base tI aSC =
      [ projectionEntry base.inputs base.internal tI aSC 1 0 0,
        projectionEntry base.inputs base.internal tI aSC 2
          (tradCost base.inputs base.internal 1) (autoCost base.inputs base.internal aSC 1),
        projectionEntry base.inputs base.internal tI aSC 3
          (tradCost base.inputs base.internal 1 + tradCost base.inputs base.internal 2)
          (autoCost base.inputs base.internal aSC 1 + autoCost base.inputs base.internal aSC 2),
        projectionEntry base.inputs base.internal tI aSC 4
          (tradCost base.inputs base.internal 1 + tradCost base.inputs base.internal 2
            + tradCost base.inputs base.internal 3)
          (autoCost base.inputs base.internal aSC 1 + autoCost base.inputs base.internal aSC 2
            + autoCost base.inputs base.internal aSC 3),
        projectionEntry base.inputs base.internal tI aSC 5
          (tradCost base.inputs base.internal 1 + tradCost base.inputs base.internal 2
            + tradCost base.inputs base.internal 3 + tradCost base.inputs base.internal 4)
          (autoCost base.inputs base.internal aSC 1 + autoCost base.inputs base.internal aSC 2
            + autoCost base.inputs base.internal aSC 3
            + autoCost base.inputs base.internal aSC 4) ] := by
  simp only [calculateProjection, max_eq_left htI, max_eq_left haSC]

theorem C5_projection_cumulative (inp : ResolvedInputs) (tI aSC : ℚ) (hv : inp.Valid)
    (htI : 0 ≤ tI) (hcents : Cents tI) (haSC : 0 ≤ aSC) :
    (∀ e ∈ calculateProjection (calculateROI inp) tI aSC,
      e.cumulativeSavings = e.cumulativeTraditional - e.cumulativeAutomated) ∧
    (∀ k, k < 5 →
      ((calculateProjection (calculateROI inp) tI aSC).getD k noEntry).cumulativeAutomated =
        (((calculateProjection (calculateROI inp) tI aSC).take (k + 1)).map
          (fun e => e.automatedCost)).sum + tI) ∧
    tI ≤ ((calculateProjection (calculateROI inp) tI aSC).getD 4 noEntry).cumulativeAutomated := by
  have hproj := calculateProjection_unfold (calculateROI inp) tI aSC htI haSC
  have hinp : (calculateROI inp).inputs = inp := rfl
  rw [hinp] at hproj
  have ct : ∀ y, Cents (tradCost inp (calculateROI inp).internal y) := fun y => cents_roundTo _
  have ca : ∀ y, Cents (autoCost inp (calculateROI inp).internal aSC y) :=
    fun y => cents_roundTo _
  have hA := fun y => autoCost_nonneg inp hv aSC haSC y
  refine ⟨?_, ?_, ?_⟩
  · intro e he
    rw [hproj] at he
    simp only [List.mem_cons, List.not_mem_nil, or_false] at he
    rcases he with rfl | rfl | rfl | rfl | rfl
    · exact projectionEntry_savings_eq _ _ _ _ _ _ _ cents_zero cents_zero hcents
    · exact projectionEntry_savings_eq _ _ _ _ _ _ _ (ct 1) (ca 1) hcents
    · exact projectionEntry_savings_eq _ _ _ _ _ _ _ ((ct 1).add (ct 2))
        ((ca 1).add (ca 2)) hcents
    · exact projectionEntry_savings_eq _ _ _ _ _ _ _ (((ct 1).add (ct 2)).add (ct 3))
        (((ca 1).add (ca 2)).add (ca 3)) hcents
    · exact projectionEntry_savings_eq _ _ _ _ _ _ _
        ((((ct 1).add (ct 2)).add (ct 3)).add (ct 4))
        ((((ca 1).add (ca 2)).add (ca 3)).add (ca 4)) hcents
  · intro k hk
    rw [hproj]
    interval_cases k <;>
      simp only [List.getD_cons_zero, List.getD_cons_succ, List.take_succ_cons,
        List.take_zero, List.map_cons, List.map_nil, List.sum_cons, List.sum_nil,
        projectionEntry_automatedCost]
    · rw [projectionEntry_cumAuto _ _ _ _ _ _ _ cents_zero hcents]
      ring
    · rw [projectionEntry_cumAuto _ _ _ _ _ _ _ (ca 1) hcents]
      ring
    · rw [projectionEntry_cumAuto _ _ _ _ _ _ _ ((ca 1).add (ca 2)) hcents]
      ring
    · rw [projectionEntry_cumAuto _ _ _ _ _ _ _ (((ca 1).add (ca 2)).add (ca 3)) hcents]
      ring
    · rw [projectionEntry_cumAuto _ _ _ _ _ _ _
        ((((ca 1).add (ca 2)).add (ca 3)).add (ca 4)) hcents]
      ring
  · rw [hproj]
    simp only [List.getD_cons_zero, List.getD_cons_succ]
    rw [projectionEntry_cumAuto _ _ _ _ _ _ _
      ((((ca 1).add (ca 2)).add (ca 3)).add (ca 4)) hcents]
    have := hA 1
    have := hA 2
    have := hA 3
    have := hA 4
    have := hA 5
    linarith

/-- C5 witness at a whole-cent investment. -/
theorem C5_witness :
    (15:ℚ) ≤ ((calculateProjection (calculateROI cinp) 15 2).getD 4 noEntry).cumulativeAutomated :=
  (C5_projection_cumulative cinp 15 2 (by decide) (by norm_num)
    ⟨1500, by norm_num⟩ (by norm_num)).2.2

/-- C5 counterexample: with the fractional-cent investment 0.004 the
year-5 cumulative automated cost rounds to 0, strictly below the
investment, refuting the claim for arbitrary non-negative investments. -/
theorem C5_counterexample :
    cinp.Valid ∧ (0:ℚ) ≤ 1/250 ∧
    ((calculateProjection (calculateROI cinp) (1/250) 0).getD 4 noEntry).cumulativeAutomated
      < 1/250 := by
  refine ⟨by decide, by norm_num, ?_⟩
  norm_num [calculateProjection, projectionEntry, tradCost, autoCost, calculateROI, cinp,
    roundTo, round_eq, List.getD]

/-- C7.  The recommender returns unitsNeeded equal to
max(1, ceil(targetAcreage / coverage)) of the selected model, hence at
least one unit, and targetAcreage is acreage times automationLevel/100
for in-range inputs. -/
theorem C7_units_formula (pt : String) (acreage aL : ℚ) (hilly : Bool) :
    (recommendEquipment pt acreage aL hilly).unitsNeeded =
      max 1 ⌈(recommendEquipment pt acreage aL hilly).targetAcreage /
        (recommendEquipment pt acreage aL hilly).model.coverage⌉ ∧
    1 ≤ (recommendEquipment pt acreage aL hilly).unitsNeeded ∧
    (0 ≤ acreage → 0 ≤ aL → aL ≤ 100 →
      (recommendEquipment pt acreage aL hilly).targetAcreage = acreage * (aL / 100)) := by
  refine ⟨rfl, le_max_left _ _, ?_⟩
  intro ha h0 h100
  show (max 0 acreage) * (min 100 (max 0 aL) / 100) = acreage * (aL / 100)
  rw [max_eq_right ha, max_eq_right h0, min_eq_right h100]

/-- C7 witness at the example scenario inputs. -/
theorem C7_witness :
    (recommendEquipment "commercial" 10 50 false).targetAcreage = 10 * (50 / 100) :=
  (C7_units_formula "commercial" 10 50 false).2.2 (by norm_num) (by norm_num) (by norm_num)

/-- C8.  The example scenario selects the 550 EPOS (coverage 2.5) at
target acreage 5 and needs 2 units. -/
theorem C8_example_scenario :
    (recommendEquipment "commercial" 10 50 false).targetAcreage = 5 ∧
    (recommendEquipment "commercial" 10 50 false).model.shortName = "550 EPOS" ∧
    (recommendEquipment "commercial" 10 50 false).model.coverage = 5/2 ∧
    (recommendEquipment "commercial" 10 50 false).unitsNeeded = 2 := by
  have hne : ("commercial" : String) ≠ "golf" := by decide
  have b1 : ("520 EPOS" == "550 EPOS") = false := by decide
  have b2 : ("520H EPOS" == "550 EPOS") = false := by decide
  have b3 : ("535 AWD EPOS" == "550 EPOS") = false := by decide
  have b4 : ("550 EPOS" == "550 EPOS") = true := by decide
  refine ⟨?_, ?_, ?_, ?_⟩ <;>
    norm_num [recommendEquipment, getModelByShortName, FALLBACK_DATA, lowerString_commercial,
      List.find?, hne, b1, b2, b3, b4]

/-- C9.  The recommendation record is internally consistent: the total
investment is the sum of the five breakdown lines, the annual service
cost the sum of the three annual lines, and the equipment total is
mowers plus reference station plus housing. -/
theorem C9_cost_consistency (pt : String) (acreage aL : ℚ) (hilly : Bool) :
    (recommendEquipment pt acreage aL hilly).costs.totalInvestment =
      ((recommendEquipment pt acreage aL hilly).breakdown.map (fun b => b.amount)).sum ∧
    (recommendEquipment pt acreage aL hilly).costs.annualService =
      ((recommendEquipment pt acreage aL hilly).annualBreakdown.map (fun b => b.amount)).sum ∧
    (recommendEquipment pt acreage aL hilly).costs.totalEquipment =
      (recommendEquipment pt acreage aL hilly).costs.mowers +
      (recommendEquipment pt acreage aL hilly).costs.referenceStation +
      (recommendEquipment pt acreage aL hilly).costs.housing := by
  refine ⟨?_, ?_, rfl⟩ <;>
    simp only [recommendEquipment, List.map_cons, List.map_nil, List.sum_cons,
      List.sum_nil] <;> ring

/-- Every assumption-style field (resolved through the undefined-check
pattern) is not a present non-numeric value. -/
def RawInputs.AssumptionsNumeric (raw : RawInputs) : Prop :=
  raw.benefitsRate ≠ RawNum.nonNumeric ∧ raw.fuelCostPerGallon ≠ RawNum.nonNumeric ∧
  raw.laborReduction ≠ RawNum.nonNumeric ∧ raw.bufferTime ≠ RawNum.nonNumeric ∧
  raw.annualLaborIncrease ≠ RawNum.nonNumeric ∧ raw.fuelPerAcre ≠ RawNum.nonNumeric ∧
  raw.annualFuelIncrease ≠ RawNum.nonNumeric ∧ raw.baseEquipmentCost ≠ RawNum.nonNumeric ∧
  raw.equipmentCostPerAcre ≠ RawNum.nonNumeric ∧ raw.maintenanceRate ≠ RawNum.nonNumeric ∧
  raw.insuranceRate ≠ RawNum.nonNumeric ∧ raw.leasingPremium ≠ RawNum.nonNumeric ∧
  raw.roboticMaintenance ≠ RawNum.nonNumeric ∧ raw.electricityPerAcre ≠ RawNum.nonNumeric ∧
  raw.co2PerGallon ≠ RawNum.nonNumeric ∧ raw.mowingTimePerAcre ≠ RawNum.nonNumeric ∧
  raw.automationLevel ≠ RawNum.nonNumeric ∧ raw.desiredMowingTime ≠ RawNum.nonNumeric

instance (raw : RawInputs) : Decidable raw.AssumptionsNumeric := by
  unfold RawInputs.AssumptionsNumeric
  infer_instance

/-- Every numeric field of a resolved record is finite and inside its
documented clamp range. -/
def ResolvedRecord.RangesOK (r : ResolvedRecord) : Prop :=
  0 ≤ r.acreage ∧ 1 ≤ r.seasonWeeks ∧ 0 ≤ r.employees ∧ 0 ≤ r.hourlyRate ∧
  (0 ≤ r.mowingTimePercent ∧ r.mowingTimePercent ≤ 100) ∧ 0 ≤ r.monthlyContract ∧
  r.benefitsRate.Within 0 100 ∧ r.fuelCostPerGallon.AtLeast 0 ∧
  r.laborReduction.Within 50 95 ∧ r.bufferTime.Within 5 40 ∧
  r.annualLaborIncrease.Within 0 10 ∧ r.fuelPerAcre.AtLeast 0 ∧
  r.annualFuelIncrease.Within 0 15 ∧ r.baseEquipmentCost.AtLeast 0 ∧
  r.equipmentCostPerAcre.AtLeast 0 ∧ r.maintenanceRate.Within 5 25 ∧
  r.insuranceRate.Within 1 15 ∧ r.leasingPremium.Within 0 20 ∧
  r.roboticMaintenance.AtLeast 0 ∧ r.electricityPerAcre.AtLeast 0 ∧
  r.co2PerGallon.AtLeast 0 ∧ r.mowingTimePerAcre.AtLeast 0 ∧
  r.automationLevel.Within 25 100 ∧ r.desiredMowingTime.Within 5 60

instance (r : ResolvedRecord) : Decidable r.RangesOK := by
  unfold ResolvedRecord.RangesOK
  infer_instance

/-- An absent raw value resolves to the documented default (for
fuelPerAcre and mowingTimePerAcre, the default of the resolved property
type). -/
def RawInputs.DefaultsApplied (raw : RawInputs) (r : ResolvedRecord) : Prop :=
  (raw.acreage = RawNum.absent → r.acreage = 0) ∧
  (raw.seasonWeeks = RawNum.absent → r.seasonWeeks = 30) ∧
  (raw.employees = RawNum.absent → r.employees = 0) ∧
  (raw.hourlyRate = RawNum.absent → r.hourlyRate = 0) ∧
  (raw.mowingTimePercent = RawNum.absent → r.mowingTimePercent = 0) ∧
  (raw.monthlyContract = RawNum.absent → r.monthlyContract = 0) ∧
  (raw.benefitsRate = RawNum.absent → r.benefitsRate = JNum.fin 12) ∧
  (raw.fuelCostPerGallon = RawNum.absent → r.fuelCostPerGallon = JNum.fin (350/100)) ∧
  (raw.laborReduction = RawNum.absent → r.laborReduction = JNum.fin 85) ∧
  (raw.bufferTime = RawNum.absent → r.bufferTime = JNum.fin 15) ∧
  (raw.annualLaborIncrease = RawNum.absent → r.annualLaborIncrease = JNum.fin (25/10)) ∧
  (raw.fuelPerAcre = RawNum.absent → r.fuelPerAcre =
    JNum.fin (((PROPERTY_DEFAULTS r.propertyType).getD commercialDefaults).fuelPerAcre)) ∧
  (raw.annualFuelIncrease = RawNum.absent → r.annualFuelIncrease = JNum.fin (35/10)) ∧
  (raw.baseEquipmentCost = RawNum.absent → r.baseEquipmentCost = JNum.fin 15000) ∧
  (raw.equipmentCostPerAcre = RawNum.absent → r.equipmentCostPerAcre = JNum.fin 2000) ∧
  (raw.maintenanceRate = RawNum.absent → r.maintenanceRate = JNum.fin 10) ∧
  (raw.insuranceRate = RawNum.absent → r.insuranceRate = JNum.fin 5) ∧
  (raw.leasingPremium = RawNum.absent → r.leasingPremium = JNum.fin 7) ∧
  (raw.roboticMaintenance = RawNum.absent → r.roboticMaintenance = JNum.fin 3) ∧
  (raw.electricityPerAcre = RawNum.absent → r.electricityPerAcre = JNum.fin (15/10)) ∧
  (raw.co2PerGallon = RawNum.absent → r.co2PerGallon = JNum.fin (1959/100)) ∧
  (raw.mowingTimePerAcre = RawNum.absent → r.mowingTimePerAcre =
    JNum.fin (((PROPERTY_DEFAULTS r.propertyType).getD commercialDefaults).mowingTimePerAcre)) ∧
  (raw.automationLevel = RawNum.absent → r.automationLevel = JNum.fin 50) ∧
  (raw.desiredMowingTime = RawNum.absent → r.desiredMowingTime = JNum.fin 20)

lemma propDefaults_fuelPerAcre_nonneg (pt : String) :
    0 ≤ ((PROPERTY_DEFAULTS pt).getD commercialDefaults).fuelPerAcre := by
  unfold PROPERTY_DEFAULTS commercialDefaults
  split_ifs <;> norm_num

lemma propDefaults_mowingTime_nonneg (pt : String) :
    0 ≤ ((PROPERTY_DEFAULTS pt).getD commercialDefaults).mowingTimePerAcre := by
  unfold PROPERTY_DEFAULTS commercialDefaults
  split_ifs <;> norm_num

/-- C1 (amended).  When every assumption-style raw value that is present
is numeric, all resolved numeric fields are finite and inside their
documented clamp ranges, and absent raw values resolve to the documented
defaults; a present non-numeric assumption-style value instead
propagates NaN through the clamp (see the counterexample). -/
theorem C1_resolved_ranges (raw : RawInputs) (h : raw.AssumptionsNumeric) :
    (resolveInputs raw).RangesOK ∧ raw.DefaultsApplied (resolveInputs raw) := by
  obtain ⟨h1, h2, h3, h4, h5, h6, h7, h8, h9, h10, h11, h12, h13, h14, h15, h16, h17, h18⟩ := h
  constructor
  · exact ⟨le_max_right _ _, le_max_right _ _, le_max_right _ _, le_max_right _ _,
      clampQ_mem _ 0 100 (by norm_num), le_max_right _ _,
      jsClamp_orDefault_within _ h1 _ 0 100 (by norm_num),
      jsMax_orDefault_atLeast _ h2 _,
      jsClamp_orDefault_within _ h3 _ 50 95 (by norm_num),
      jsClamp_orDefault_within _ h4 _ 5 40 (by norm_num),
      jsClamp_orDefault_within _ h5 _ 0 10 (by norm_num),
      jsMax_orDefault_atLeast _ h6 _,
      jsClamp_orDefault_within _ h7 _ 0 15 (by norm_num),
      jsMax_orDefault_atLeast _ h8 _,
      jsMax_orDefault_atLeast _ h9 _,
      jsClamp_orDefault_within _ h10 _ 5 25 (by norm_num),
      jsClamp_orDefault_within _ h11 _ 1 15 (by norm_num),
      jsClamp_orDefault_within _ h12 _ 0 20 (by norm_num),
      jsMax_orDefault_atLeast _ h13 _,
      jsMax_orDefault_atLeast _ h14 _,
      jsMax_orDefault_atLeast _ h15 _,
      jsMax_orDefault_atLeast _ h16 _,
      jsClamp_orDefault_within _ h17 _ 25 100 (by norm_num),
      jsClamp_orDefault_within _ h18 _ 5 60 (by norm_num)⟩
  · unfold RawInputs.DefaultsApplied
    dsimp only [resolveInputs]
    refine ⟨fun hf => ?_, fun hf => ?_, fun hf => ?_, fun hf => ?_, fun hf => ?_,
      fun hf => ?_, fun hf => ?_, fun hf => ?_, fun hf => ?_, fun hf => ?_, fun hf => ?_,
      fun hf => ?_, fun hf => ?_, fun hf => ?_, fun hf => ?_, fun hf => ?_, fun hf => ?_,
      fun hf => ?_, fun hf => ?_, fun hf => ?_, fun hf => ?_, fun hf => ?_, fun hf => ?_,
      fun hf => ?_⟩ <;>
      rw [hf]
    · norm_num [numOr, jsOr, jsNumber]
    · norm_num [numOr, jsOr, jsNumber]
    · norm_num [numOr, jsOr, jsNumber]
    · norm_num [numOr, jsOr, jsNumber]
    · norm_num [numOr, jsOr, jsNumber, clampQ]
    · norm_num [numOr, jsOr, jsNumber]
    · norm_num [orDefault, jsClamp, clampQ]
    · norm_num [orDefault, jsMax]
    · norm_num [orDefault, jsClamp, clampQ]
    · norm_num [orDefault, jsClamp, clampQ]
    · norm_num [orDefault, jsClamp, clampQ]
    · show jsMax (orDefault RawNum.absent _) 0 = _
      rw [show (jsMax (orDefault RawNum.absent
        ((PROPERTY_DEFAULTS (match raw.propertyType with
          | none => "commercial"
          | some s => if s = "" then "commercial" else s)).getD
            commercialDefaults).fuelPerAcre) 0) = JNum.fin (max (((PROPERTY_DEFAULTS
              (match raw.propertyType with
              | none => "commercial"
              | some s => if s = "" then "commercial" else s)).getD
                commercialDefaults).fuelPerAcre) 0) from rfl,
        max_eq_left (propDefaults_fuelPerAcre_nonneg _)]
    · norm_num [orDefault, jsClamp, clampQ]
    · norm_num [orDefault, jsMax]
    · norm_num [orDefault, jsMax]
    · norm_num [orDefault, jsClamp, clampQ]
    · norm_num [orDefault, jsClamp, clampQ]
    · norm_num [orDefault, jsClamp, clampQ]
    · norm_num [orDefault, jsMax]
    · norm_num [orDefault, jsMax]
    · norm_num [orDefault, jsMax]
    · show jsMax (orDefault RawNum.absent _) 0 = _
      rw [show (jsMax (orDefault RawNum.absent
        ((PROPERTY_DEFAULTS (match raw.propertyType with
          | none => "commercial"
          | some s => if s = "" then "commercial" else s)).getD
            commercialDefaults).mowingTimePerAcre) 0) = JNum.fin (max (((PROPERTY_DEFAULTS
              (match raw.propertyType with
              | none => "commercial"
              | some s => if s = "" then "commercial" else s)).getD
                commercialDefaults).mowingTimePerAcre) 0) from rfl,
        max_eq_left (propDefaults_mowingTime_nonneg _)]
    · norm_num [orDefault, jsClamp, clampQ]
    · norm_num [orDefault, jsClamp, clampQ]

/-- C1 witness: the all-absent raw map satisfies the hypothesis and the
conclusion. -/
theorem C1_witness :
    rawAllAbsent.AssumptionsNumeric ∧ (resolveInputs rawAllAbsent).RangesOK ∧
    rawAllAbsent.DefaultsApplied (resolveInputs rawAllAbsent) := by
  have h : rawAllAbsent.AssumptionsNumeric := by decide
  exact ⟨h, (C1_resolved_ranges rawAllAbsent h).1, (C1_resolved_ranges rawAllAbsent h).2⟩

/-- C1 counterexample: a present non-numeric benefitsRate resolves to
NaN, which is neither finite, nor in range, nor the default - refuting
the claim that non-numeric raw values take the default before
clamping. -/
theorem C1_counterexample :
    (resolveInputs { rawAllAbsent with benefitsRate := RawNum.nonNumeric }).benefitsRate
      = JNum.nan ∧
    ¬ (resolveInputs
        { rawAllAbsent with benefitsRate := RawNum.nonNumeric }).benefitsRate.Within 0 100 :=
  ⟨rfl, fun hw => hw⟩
